import Mathlib

/-!
Verification of the Gemini AI Study Assistant app (src/app.py) against its
natural-language specification.

The program is a Streamlit page with three tabs (Code Debugger, Topic
Explainer, Data Analysis Concepts).  Each tab reads one text input and, on a
button press, validates the input with Python truthiness (`if code_input:`),
builds a prompt with an f-string, calls `model.generate_content(prompt)`
inside a `try`, and renders either the response text under a subheader or an
error message; empty input produces a warning instead.

The embedding below is shallow: every Streamlit display call performed by a
handler (spinner, subheader, markdown, warning, error) and every call to the
model client is recorded as an `Event` in the order the Python statements
execute.  The model client `model.generate_content` is a parameter
`gen : GenModel → String → Except String String`: `Except.ok` is a response
object whose `.text` is the payload, `Except.error` is a raised exception
carrying its message text.  The handlers are total Lean functions returning
the (unchanged) global state and the list of emitted events, which models the
fact that the Python `except` clause catches every exception and the script
runs on.
-/

namespace App

/-- The initialized Gemini model object (`genai.GenerativeModel('gemini-2.0-flash')`). -/
structure GenModel where
  name : String
deriving DecidableEq, Repr

/-- `model = genai.GenerativeModel('gemini-2.0-flash')`, src/app.py line 37. -/
def geminiModel : GenModel :=
  ⟨"gemini-2.0-flash"⟩

/-- Process-wide state set at startup: the configured credential
(`genai.configure(api_key=...)`) and the constructed model object. -/
structure AppState where
  credential : String
  model : GenModel
deriving DecidableEq, Repr

/-- One observable step of a handler run: a Streamlit display call or a call
to the model client. -/
inductive Event where
  | spinner (text : String)
  | modelCall (prompt : String)
  | subheader (text : String)
  | markdown (text : String)
  | warning (text : String)
  | error (text : String)
deriving DecidableEq, Repr

/-- Python truthiness of a string (`if code_input:`): true iff non-empty. -/
def pyTruthy (s : String) : Bool :=
  !s.isEmpty

/-- Substring containment: `small` occurs contiguously inside `big`. -/
def Contains (big small : String) : Prop :=
  small.data <:+: big.data

instance (big small : String) : Decidable (Contains big small) :=
  inferInstanceAs (Decidable (small.data <:+: big.data))

/-- Prompt of the Debug Code handler, src/app.py line 77. -/
def debugPrompt (code_input : String) : String :=
  "Debug the following code. Explain any errors, suggest fixes, and provide a corrected version if necessary:\n\n```\n" ++ code_input ++ "\n```"

/-- Prompt of the Explain Topic handler, src/app.py line 98. -/
def topicPrompt (topic_input : String) : String :=
  "Explain the following topic in simple terms, using analogies and a clear, relatable example:\n\nTopic: " ++ topic_input

/-- Prompt of the Explain Concept handler, src/app.py line 119. -/
def conceptPrompt (concept_input : String) : String :=
  "Explain the data analysis concept \x27" ++ concept_input ++ "\x27 in detail, including its purpose, how it\x27s used, and a simple example if applicable."

/-- Heading shown by the Debug Code handler, src/app.py line 79. -/
def debugHeading : String :=
  "Debugging Report:"

/-- Heading shown by the Explain Topic handler, src/app.py line 100. -/
def topicHeading (topic_input : String) : String :=
  "Explanation for \x27" ++ topic_input ++ "\x27:"

/-- Heading shown by the Explain Concept handler, src/app.py line 121. -/
def conceptHeading (concept_input : String) : String :=
  "Explanation for \x27" ++ concept_input ++ "\x27:"

/-- Error message of the Debug Code handler, src/app.py line 82. -/
def debugErrorMsg (e : String) : String :=
  "An error occurred while debugging: " ++ e

/-- Error message of the Explain Topic handler, src/app.py line 103. -/
def topicErrorMsg (e : String) : String :=
  "An error occurred while explaining the topic: " ++ e

/-- Error message of the Explain Concept handler, src/app.py line 124. -/
def conceptErrorMsg (e : String) : String :=
  "An error occurred while explaining the concept: " ++ e

/-- Empty-input warning of the Debug Code handler, src/app.py line 84. -/
def debugWarning : String :=
  "Please enter some code to debug."

/-- Empty-input warning of the Explain Topic handler, src/app.py line 105. -/
def topicWarning : String :=
  "Please enter a topic to explain."

/-- Empty-input warning of the Explain Concept handler, src/app.py line 126. -/
def conceptWarning : String :=
  "Please enter a data analysis concept."

/-- Spinner text of the Debug Code handler, src/app.py line 75. -/
def debugSpinner : String :=
  "Debugging your code..."

/-- Spinner text of the Explain Topic handler, src/app.py line 96. -/
def topicSpinner (topic_input : String) : String :=
  "Explaining \x27" ++ topic_input ++ "\x27..."

/-- Spinner text of the Explain Concept handler, src/app.py line 117. -/
def conceptSpinner (concept_input : String) : String :=
  "Explaining \x27" ++ concept_input ++ "\x27..."

/-- The Debug Code button handler, src/app.py lines 73-84. -/
def debugHandler (st : AppState) (gen : GenModel → String → Except String String)
    (code_input : String) : AppState × List Event :=
  if pyTruthy code_input then
    match gen st.model (debugPrompt code_input) with
    | Except.ok text =>
        (st, [Event.spinner debugSpinner, Event.modelCall (debugPrompt code_input),
              Event.subheader debugHeading, Event.markdown text])
    | Except.error e =>
        (st, [Event.spinner debugSpinner, Event.modelCall (debugPrompt code_input),
              Event.error (debugErrorMsg e)])
  else
    (st, [Event.warning debugWarning])

/-- The Explain Topic button handler, src/app.py lines 94-105. -/
def topicHandler (st : AppState) (gen : GenModel → String → Except String String)
    (topic_input : String) : AppState × List Event :=
  if pyTruthy topic_input then
    match gen st.model (topicPrompt topic_input) with
    | Except.ok text =>
        (st, [Event.spinner (topicSpinner topic_input), Event.modelCall (topicPrompt topic_input),
              Event.subheader (topicHeading topic_input), Event.markdown text])
    | Except.error e =>
        (st, [Event.spinner (topicSpinner topic_input), Event.modelCall (topicPrompt topic_input),
              Event.error (topicErrorMsg e)])
  else
    (st, [Event.warning topicWarning])

/-- The Explain Concept button handler, src/app.py lines 115-126. -/
def conceptHandler (st : AppState) (gen : GenModel → String → Except String String)
    (concept_input : String) : AppState × List Event :=
  if pyTruthy concept_input then
    match gen st.model (conceptPrompt concept_input) with
    | Except.ok text =>
        (st, [Event.spinner (conceptSpinner concept_input), Event.modelCall (conceptPrompt concept_input),
              Event.subheader (conceptHeading concept_input), Event.markdown text])
    | Except.error e =>
        (st, [Event.spinner (conceptSpinner concept_input), Event.modelCall (conceptPrompt concept_input),
              Event.error (conceptErrorMsg e)])
  else
    (st, [Event.warning conceptWarning])

/-- Outcome of the startup section, src/app.py lines 10-40: either the script
is stopped by `st.error(...); st.stop()` before a model is constructed, or
it runs on with a configured credential and a constructed model object. -/
inductive Startup where
  | halted (errMsg : String)
  | running (credential : String) (model : GenModel)
deriving DecidableEq, Repr

/-- Value the secrets store yields for the API key: `none` when `st.secrets`
cannot be read or has no `GOOGLE_API_KEY` entry. -/
def secretsKey (secrets : Except String (List (String × String))) : Option String :=
  match secrets with
  | Except.error _ => none
  | Except.ok tbl => tbl.lookup "GOOGLE_API_KEY"

/-- The startup configuration, src/app.py lines 10-40.  `envKey` is
`os.getenv('GOOGLE_API_KEY')` (`none` when unset); `secrets` is the
`st.secrets` store, `Except.error e` when accessing it raises an exception
(caught by the `except` clause of lines 31-33).  Mirrors: configure with the
env value when truthy; otherwise configure from secrets when the key is
present (`if "GOOGLE_API_KEY" in st.secrets`, a containment test); otherwise
`st.error(...)` and `st.stop()`.  On the non-stopped paths the model object
is then constructed (line 37). -/
def startup (envKey : Option String)
    (secrets : Except String (List (String × String))) : Startup :=
  let GOOGLE_API_KEY := envKey.getD ""
  if pyTruthy GOOGLE_API_KEY then
    Startup.running GOOGLE_API_KEY geminiModel
  else
    match secrets with
    | Except.error e =>
        Startup.halted ("Error configuring Gemini API: " ++ e ++ ". Please ensure your API key is set.")
    | Except.ok tbl =>
        match tbl.lookup "GOOGLE_API_KEY" with
        | some k => Startup.running k geminiModel
        | none =>
            Startup.halted "Google API Key not found. Please set it as an environment variable or in Streamlit secrets."

/-- Whether startup stopped the script before constructing a model. -/
def isHalted : Startup → Bool
  | Startup.halted _ => true
  | Startup.running _ _ => false

/-- The three tabs of the page, src/app.py line 54. -/
inductive Tab where
  | debug
  | topic
  | concept
deriving DecidableEq, Repr

/-- Run the handler of one tab on one trigger. -/
def dispatch (st : AppState) (gen : GenModel → String → Except String String) :
    Tab × String → AppState × List Event
  | (Tab.debug, s) => debugHandler st gen s
  | (Tab.topic, s) => topicHandler st gen s
  | (Tab.concept, s) => conceptHandler st gen s

/-- Run a sequence of triggered interactions, threading the process-wide
state through each handler; returns the final state. -/
def runAll (st : AppState) (gen : GenModel → String → Except String String) :
    List (Tab × String) → AppState
  | [] => st
  | t :: ts => runAll (dispatch st gen t).1 gen ts

/-- A model client stub returning the fixed string `s` for any prompt. -/
def stubOk (s : String) : GenModel → String → Except String String :=
  fun _ _ => Except.ok s

/-- A model client stub that always fails with message `e`. -/
def stubErr (e : String) : GenModel → String → Except String String :=
  fun _ _ => Except.error e

/-- A concrete startup state used to instantiate universally quantified
theorems. -/
def st0 : AppState :=
  ⟨"test-key", geminiModel⟩

-- Helper lemmas -----------------------------------------------------------

/-- Strings with equal character data are equal. -/
theorem string_eq_of_data_eq {s t : String} (h : s.data = t.data) : s = t :=
  congrArg String.mk h

/-- A string flanked by two fixed strings occurs in the result as a
contiguous substring. -/
theorem contains_affix (p s q : String) : Contains (p ++ s ++ q) s := by
  refine ⟨p.data, q.data, ?_⟩
  simp [String.data_append]

/-- A string appended to a fixed prefix occurs in the result as a contiguous
substring. -/
theorem contains_after (p s : String) : Contains (p ++ s) s := by
  refine ⟨p.data, [], ?_⟩
  simp [String.data_append]

/-- The debug prompt contains the code input verbatim. -/
theorem debugPrompt_contains (s : String) : Contains (debugPrompt s) s :=
  contains_affix _ s _

/-- The topic prompt contains the topic input verbatim. -/
theorem topicPrompt_contains (s : String) : Contains (topicPrompt s) s :=
  contains_after _ s

/-- The concept prompt contains the concept input verbatim. -/
theorem conceptPrompt_contains (s : String) : Contains (conceptPrompt s) s :=
  contains_affix _ s _

/-- Appending to a fixed prefix and a fixed suffix is injective. -/
theorem append_affix_inj (p q : String) {s1 s2 : String}
    (h : p ++ s1 ++ q = p ++ s2 ++ q) : s1 = s2 := by
  have hd : p.data ++ (s1.data ++ q.data) = p.data ++ (s2.data ++ q.data) := by
    have h2 := congrArg String.data h
    simpa [String.data_append, List.append_assoc] using h2
  have h3 := List.append_cancel_left hd
  have h4 := List.append_cancel_right h3
  exact string_eq_of_data_eq h4

/-- Appending to a fixed prefix is injective. -/
theorem append_prefix_inj (p : String) {s1 s2 : String}
    (h : p ++ s1 = p ++ s2) : s1 = s2 := by
  have hd : p.data ++ s1.data = p.data ++ s2.data := by
    have h2 := congrArg String.data h
    simpa [String.data_append] using h2
  exact string_eq_of_data_eq (List.append_cancel_left hd)

/-- Lists starting with prefixes that disagree at a common index stay
different after appending anything. -/
theorem append_ne_of_getElem_ne {p q : List Char} (k : Nat)
    (hp : k < p.length) (hq : k < q.length) (hne : p[k]? ≠ q[k]?)
    (a b : List Char) : p ++ a ≠ q ++ b := by
  intro h
  apply hne
  calc p[k]? = (p ++ a)[k]? := (List.getElem?_append_left hp).symm
    _ = (q ++ b)[k]? := by rw [h]
    _ = q[k]? := List.getElem?_append_left hq

/-- Strings built from fixed prefixes that disagree at a common index stay
different after appending anything. -/
theorem string_append_ne_of_getElem_ne (p q : String) (k : Nat)
    (hp : k < p.data.length) (hq : k < q.data.length)
    (hne : p.data[k]? ≠ q.data[k]?) (a b : String) : p ++ a ≠ q ++ b := by
  intro h
  have hd : p.data ++ a.data = q.data ++ b.data := by
    have h2 := congrArg String.data h
    simpa [String.data_append] using h2
  exact append_ne_of_getElem_ne k hp hq hne a.data b.data hd

/-- No handler changes the process-wide state: Debug Code. -/
theorem debugHandler_fst (st : AppState) (gen : GenModel → String → Except String String)
    (s : String) : (debugHandler st gen s).1 = st := by
  unfold debugHandler
  split
  · split <;> rfl
  · rfl

/-- No handler changes the process-wide state: Explain Topic. -/
theorem topicHandler_fst (st : AppState) (gen : GenModel → String → Except String String)
    (s : String) : (topicHandler st gen s).1 = st := by
  unfold topicHandler
  split
  · split <;> rfl
  · rfl

/-- No handler changes the process-wide state: Explain Concept. -/
theorem conceptHandler_fst (st : AppState) (gen : GenModel → String → Except String String)
    (s : String) : (conceptHandler st gen s).1 = st := by
  unfold conceptHandler
  split
  · split <;> rfl
  · rfl

/-- Dispatching any trigger leaves the process-wide state unchanged. -/
theorem dispatch_fst (st : AppState) (gen : GenModel → String → Except String String)
    (t : Tab × String) : (dispatch st gen t).1 = st := by
  rcases t with ⟨tab, s⟩
  cases tab
  · exact debugHandler_fst st gen s
  · exact topicHandler_fst st gen s
  · exact conceptHandler_fst st gen s

/-- Any sequence of triggered interactions leaves the process-wide state
unchanged. -/
theorem runAll_id (gen : GenModel → String → Except String String)
    (ts : List (Tab × String)) (st : AppState) : runAll st gen ts = st := by
  induction ts generalizing st with
  | nil => rfl
  | cons t ts ih =>
      show runAll (dispatch st gen t).1 gen ts = st
      rw [dispatch_fst st gen t]
      exact ih st

-- Claim theorems ----------------------------------------------------------

/-- C1 counterexample: the input consisting of a single space is
whitespace-only (it trims to the empty string) and non-empty; the Debug Code
handler treats it as filled, invokes the model client on it, and shows no
warning, contrary to the claim that whitespace-only input is blocked. -/
theorem c1_whitespace_input_calls_model :
    (" " : String).data.all Char.isWhitespace = true ∧ (" " : String) ≠ "" ∧
    Event.modelCall (debugPrompt " ") ∈ (debugHandler st0 (stubOk "S") " ").2 ∧
    Event.warning debugWarning ∉ (debugHandler st0 (stubOk "S") " ").2 := by
  refine ⟨?_, ?_, ?_, ?_⟩ <;> decide

/-- C1 (amended): for every empty user input string, in each of the three
tabs, triggering the action emits exactly the tab\x27s empty-input warning, so
the model client is never invoked. -/
theorem c1_empty_input_blocks_model_call (st : AppState)
    (gen : GenModel → String → Except String String) (s : String) (h : s = "") :
    (debugHandler st gen s).2 = [Event.warning debugWarning] ∧
    (topicHandler st gen s).2 = [Event.warning topicWarning] ∧
    (conceptHandler st gen s).2 = [Event.warning conceptWarning] := by
  subst h
  exact ⟨rfl, rfl, rfl⟩

/-- Witness for C1 (amended) at the empty string. -/
theorem c1_empty_input_blocks_model_call_witness :
    (debugHandler st0 (stubOk "S") "").2 = [Event.warning debugWarning] ∧
    (topicHandler st0 (stubOk "S") "").2 = [Event.warning topicWarning] ∧
    (conceptHandler st0 (stubOk "S") "").2 = [Event.warning conceptWarning] :=
  c1_empty_input_blocks_model_call st0 (stubOk "S") "" rfl

/-- C2 counterexample: with non-empty input "x" and a stub returning "S",
the Debug Code tab shows the response under the fixed heading
"Debugging Report:", which does not contain the input, contrary to the
claim that all three tabs\x27 headings reference the input. -/
theorem c2_debug_heading_ignores_input :
    (debugHandler st0 (stubOk "S") "x").2 =
      [Event.spinner debugSpinner, Event.modelCall (debugPrompt "x"),
       Event.subheader debugHeading, Event.markdown "S"] ∧
    ¬ Contains debugHeading "x" :=
  ⟨rfl, by decide⟩

/-- C2 (amended): for every non-empty input and successful response, the
Topic and Concept tabs display the response under a heading containing the
input, while the Debug tab displays it under the fixed heading
"Debugging Report:". -/
theorem c2_response_under_heading (st : AppState)
    (gen : GenModel → String → Except String String) (s S : String)
    (h : pyTruthy s = true)
    (ht : gen st.model (topicPrompt s) = Except.ok S)
    (hc : gen st.model (conceptPrompt s) = Except.ok S)
    (hd : gen st.model (debugPrompt s) = Except.ok S) :
    ((topicHandler st gen s).2 =
      [Event.spinner (topicSpinner s), Event.modelCall (topicPrompt s),
       Event.subheader (topicHeading s), Event.markdown S] ∧
     Contains (topicHeading s) s) ∧
    ((conceptHandler st gen s).2 =
      [Event.spinner (conceptSpinner s), Event.modelCall (conceptPrompt s),
       Event.subheader (conceptHeading s), Event.markdown S] ∧
     Contains (conceptHeading s) s) ∧
    (debugHandler st gen s).2 =
      [Event.spinner debugSpinner, Event.modelCall (debugPrompt s),
       Event.subheader debugHeading, Event.markdown S] := by
  refine ⟨⟨?_, contains_affix _ s _⟩, ⟨?_, contains_affix _ s _⟩, ?_⟩
  · simp [topicHandler, h, ht]
  · simp [conceptHandler, h, hc]
  · simp [debugHandler, h, hd]

/-- Witness for C2 (amended) at input "x" and response "S". -/
theorem c2_response_under_heading_witness :
    (((topicHandler st0 (stubOk "S") "x").2 =
      [Event.spinner (topicSpinner "x"), Event.modelCall (topicPrompt "x"),
       Event.subheader (topicHeading "x"), Event.markdown "S"] ∧
     Contains (topicHeading "x") "x") ∧
    ((conceptHandler st0 (stubOk "S") "x").2 =
      [Event.spinner (conceptSpinner "x"), Event.modelCall (conceptPrompt "x"),
       Event.subheader (conceptHeading "x"), Event.markdown "S"] ∧
     Contains (conceptHeading "x") "x") ∧
    (debugHandler st0 (stubOk "S") "x").2 =
      [Event.spinner debugSpinner, Event.modelCall (debugPrompt "x"),
       Event.subheader debugHeading, Event.markdown "S"]) :=
  c2_response_under_heading st0 (stubOk "S") "x" "S" rfl rfl rfl rfl

/-- C3: for every non-empty input, each of the three built prompts contains
the input verbatim as a contiguous substring. -/
theorem c3_prompts_contain_input (s : String) (_h : s ≠ "") :
    Contains (debugPrompt s) s ∧ Contains (topicPrompt s) s ∧
    Contains (conceptPrompt s) s :=
  ⟨debugPrompt_contains s, topicPrompt_contains s, conceptPrompt_contains s⟩

/-- Witness for C3 at input "x". -/
theorem c3_prompts_contain_input_witness :
    Contains (debugPrompt "x") "x" ∧ Contains (topicPrompt "x") "x" ∧
    Contains (conceptPrompt "x") "x" :=
  c3_prompts_contain_input "x" (by decide)

/-- C4: when the model client fails, each handler catches the exception and
displays an error message containing the exception text; each handler is a
total function returning a value, so execution continues past it. -/
theorem c4_remote_failure_caught (st : AppState)
    (gen : GenModel → String → Except String String) (s e : String)
    (h : pyTruthy s = true)
    (hd : gen st.model (debugPrompt s) = Except.error e)
    (ht : gen st.model (topicPrompt s) = Except.error e)
    (hc : gen st.model (conceptPrompt s) = Except.error e) :
    ((debugHandler st gen s).2 =
      [Event.spinner debugSpinner, Event.modelCall (debugPrompt s),
       Event.error (debugErrorMsg e)] ∧
     Contains (debugErrorMsg e) e) ∧
    ((topicHandler st gen s).2 =
      [Event.spinner (topicSpinner s), Event.modelCall (topicPrompt s),
       Event.error (topicErrorMsg e)] ∧
     Contains (topicErrorMsg e) e) ∧
    ((conceptHandler st gen s).2 =
      [Event.spinner (conceptSpinner s), Event.modelCall (conceptPrompt s),
       Event.error (conceptErrorMsg e)] ∧
     Contains (conceptErrorMsg e) e) := by
  refine ⟨⟨?_, contains_after _ e⟩, ⟨?_, contains_after _ e⟩, ⟨?_, contains_after _ e⟩⟩
  · simp [debugHandler, h, hd]
  · simp [topicHandler, h, ht]
  · simp [conceptHandler, h, hc]

/-- Witness for C4 with a stub failing with "quota exceeded" at input "x". -/
theorem c4_remote_failure_caught_witness :
    (((debugHandler st0 (stubErr "quota exceeded") "x").2 =
      [Event.spinner debugSpinner, Event.modelCall (debugPrompt "x"),
       Event.error (debugErrorMsg "quota exceeded")] ∧
     Contains (debugErrorMsg "quota exceeded") "quota exceeded") ∧
    ((topicHandler st0 (stubErr "quota exceeded") "x").2 =
      [Event.spinner (topicSpinner "x"), Event.modelCall (topicPrompt "x"),
       Event.error (topicErrorMsg "quota exceeded")] ∧
     Contains (topicErrorMsg "quota exceeded") "quota exceeded") ∧
    ((conceptHandler st0 (stubErr "quota exceeded") "x").2 =
      [Event.spinner (conceptSpinner "x"), Event.modelCall (conceptPrompt "x"),
       Event.error (conceptErrorMsg "quota exceeded")] ∧
     Contains (conceptErrorMsg "quota exceeded") "quota exceeded")) :=
  c4_remote_failure_caught st0 (stubErr "quota exceeded") "x" "quota exceeded" rfl rfl rfl rfl

/-- C5 counterexample: with the environment variable unset and the secrets
store mapping GOOGLE_API_KEY to the empty string, the secrets containment
test succeeds, so startup configures the empty credential and constructs the
model client instead of halting. -/
theorem c5_empty_secret_constructs_model :
    startup none (Except.ok [("GOOGLE_API_KEY", "")]) =
      Startup.running "" geminiModel := rfl

/-- C5 (amended): when the environment variable yields no truthy value and
the secrets store yields no GOOGLE_API_KEY entry (or cannot be read),
startup halts with a visible configuration error before any model client is
constructed. -/
theorem c5_missing_key_halts (envKey : Option String)
    (secrets : Except String (List (String × String)))
    (h1 : pyTruthy (envKey.getD "") = false)
    (h2 : secretsKey secrets = none) :
    isHalted (startup envKey secrets) = true := by
  unfold startup
  cases secrets with
  | error e => simp [h1, isHalted]
  | ok tbl =>
      have hl : tbl.lookup "GOOGLE_API_KEY" = none := by
        simpa [secretsKey] using h2
      simp [h1, hl, isHalted]

/-- Witness for C5 (amended): env unset and empty secrets store halt. -/
theorem c5_missing_key_halts_witness :
    isHalted (startup none (Except.ok [])) = true :=
  c5_missing_key_halts none (Except.ok []) rfl rfl

/-- C6: concrete scenario: the debug prompt for the input
"def f(): return 1/0" contains that input verbatim, and with a stub
returning "Division by zero at line 1." the handler renders exactly that
string as the body directly under the "Debugging Report:" heading. -/
theorem c6_concrete_debug_scenario :
    Contains (debugPrompt "def f(): return 1/0") "def f(): return 1/0" ∧
    (debugHandler st0 (stubOk "Division by zero at line 1.") "def f(): return 1/0").2 =
      [Event.spinner debugSpinner,
       Event.modelCall (debugPrompt "def f(): return 1/0"),
       Event.subheader debugHeading,
       Event.markdown "Division by zero at line 1."] :=
  ⟨debugPrompt_contains _, rfl⟩

/-- C7: on the empty input each handler surfaces a warning of the form
"Please enter ...", never calls the model client, and returns with the
process-wide state unchanged (back to the idle state). -/
theorem c7_empty_trigger_warns_and_never_calls (st : AppState)
    (gen : GenModel → String → Except String String) :
    (debugHandler st gen "").2 = [Event.warning debugWarning] ∧
    (topicHandler st gen "").2 = [Event.warning topicWarning] ∧
    (conceptHandler st gen "").2 = [Event.warning conceptWarning] ∧
    (∃ r, debugWarning = "Please enter " ++ r) ∧
    (∃ r, topicWarning = "Please enter " ++ r) ∧
    (∃ r, conceptWarning = "Please enter " ++ r) ∧
    (∀ p, Event.modelCall p ∉ (debugHandler st gen "").2) ∧
    (∀ p, Event.modelCall p ∉ (topicHandler st gen "").2) ∧
    (∀ p, Event.modelCall p ∉ (conceptHandler st gen "").2) ∧
    (debugHandler st gen "").1 = st ∧
    (topicHandler st gen "").1 = st ∧
    (conceptHandler st gen "").1 = st := by
  refine ⟨rfl, rfl, rfl, ⟨"some code to debug.", by decide⟩,
    ⟨"a topic to explain.", by decide⟩, ⟨"a data analysis concept.", by decide⟩,
    ?_, ?_, ?_, rfl, rfl, rfl⟩
  · intro p
    show Event.modelCall p ∉ [Event.warning debugWarning]
    simp
  · intro p
    show Event.modelCall p ∉ [Event.warning topicWarning]
    simp
  · intro p
    show Event.modelCall p ∉ [Event.warning conceptWarning]
    simp

/-- C8: the credential and the model are fixed by startup; every handler and
every sequence of triggered interactions returns the process-wide state
unchanged, in success, warning, and failure branches alike. -/
theorem c8_state_never_mutated (envKey : Option String)
    (secrets : Except String (List (String × String))) (cred : String)
    (m : GenModel) (gen : GenModel → String → Except String String)
    (s : String) (ts : List (Tab × String))
    (_h : startup envKey secrets = Startup.running cred m) :
    (debugHandler ⟨cred, m⟩ gen s).1 = ⟨cred, m⟩ ∧
    (topicHandler ⟨cred, m⟩ gen s).1 = ⟨cred, m⟩ ∧
    (conceptHandler ⟨cred, m⟩ gen s).1 = ⟨cred, m⟩ ∧
    runAll ⟨cred, m⟩ gen ts = ⟨cred, m⟩ :=
  ⟨debugHandler_fst _ gen s, topicHandler_fst _ gen s,
   conceptHandler_fst _ gen s, runAll_id gen ts _⟩

/-- Witness for C8 after a startup from the environment variable. -/
theorem c8_state_never_mutated_witness :
    (debugHandler ⟨"k", geminiModel⟩ (stubOk "S") "x").1 = ⟨"k", geminiModel⟩ ∧
    (topicHandler ⟨"k", geminiModel⟩ (stubOk "S") "x").1 = ⟨"k", geminiModel⟩ ∧
    (conceptHandler ⟨"k", geminiModel⟩ (stubOk "S") "x").1 = ⟨"k", geminiModel⟩ ∧
    runAll ⟨"k", geminiModel⟩ (stubOk "S") [(Tab.debug, "x"), (Tab.topic, "")] =
      ⟨"k", geminiModel⟩ :=
  c8_state_never_mutated (some "k") (Except.ok []) "k" geminiModel (stubOk "S")
    "x" [(Tab.debug, "x"), (Tab.topic, "")] rfl

/-- C9: each prompt-building expression is injective in the user input:
distinct inputs give distinct prompts, because each template is a fixed
prefix and a fixed suffix around the verbatim input. -/
theorem c9_prompt_builders_injective (s1 s2 : String) (h : s1 ≠ s2) :
    debugPrompt s1 ≠ debugPrompt s2 ∧ topicPrompt s1 ≠ topicPrompt s2 ∧
    conceptPrompt s1 ≠ conceptPrompt s2 := by
  refine ⟨fun he => h ?_, fun he => h ?_, fun he => h ?_⟩
  · unfold debugPrompt at he
    exact append_affix_inj _ _ he
  · unfold topicPrompt at he
    exact append_prefix_inj _ he
  · unfold conceptPrompt at he
    exact append_affix_inj _ _ he

/-- Witness for C9 at the distinct inputs "a" and "b". -/
theorem c9_prompt_builders_injective_witness :
    debugPrompt "a" ≠ debugPrompt "b" ∧ topicPrompt "a" ≠ topicPrompt "b" ∧
    conceptPrompt "a" ≠ conceptPrompt "b" :=
  c9_prompt_builders_injective "a" "b" (by decide)

/-- C10: on failure each tab shows its own fixed prefix followed by the
exception text, and the three message families are pairwise disjoint, so
the originating tab is identifiable from the message alone. -/
theorem c10_error_messages_identify_tab :
    (∀ e : String, debugErrorMsg e = "An error occurred while debugging: " ++ e) ∧
    (∀ e : String, topicErrorMsg e = "An error occurred while explaining the topic: " ++ e) ∧
    (∀ e : String, conceptErrorMsg e = "An error occurred while explaining the concept: " ++ e) ∧
    (∀ (st : AppState) (gen : GenModel → String → Except String String) (s e : String),
      pyTruthy s = true → gen st.model (debugPrompt s) = Except.error e →
      Event.error (debugErrorMsg e) ∈ (debugHandler st gen s).2) ∧
    (∀ (st : AppState) (gen : GenModel → String → Except String String) (s e : String),
      pyTruthy s = true → gen st.model (topicPrompt s) = Except.error e →
      Event.error (topicErrorMsg e) ∈ (topicHandler st gen s).2) ∧
    (∀ (st : AppState) (gen : GenModel → String → Except String String) (s e : String),
      pyTruthy s = true → gen st.model (conceptPrompt s) = Except.error e →
      Event.error (conceptErrorMsg e) ∈ (conceptHandler st gen s).2) ∧
    (∀ e1 e2 : String, debugErrorMsg e1 ≠ topicErrorMsg e2) ∧
    (∀ e1 e2 : String, debugErrorMsg e1 ≠ conceptErrorMsg e2) ∧
    (∀ e1 e2 : String, topicErrorMsg e1 ≠ conceptErrorMsg e2) := by
  refine ⟨fun e => rfl, fun e => rfl, fun e => rfl, ?_, ?_, ?_, ?_, ?_, ?_⟩
  · intro st gen s e hs hg
    simp [debugHandler, hs, hg]
  · intro st gen s e hs hg
    simp [topicHandler, hs, hg]
  · intro st gen s e hs hg
    simp [conceptHandler, hs, hg]
  · intro e1 e2
    unfold debugErrorMsg topicErrorMsg
    exact string_append_ne_of_getElem_ne _ _ 24 (by decide) (by decide) (by decide) e1 e2
  · intro e1 e2
    unfold debugErrorMsg conceptErrorMsg
    exact string_append_ne_of_getElem_ne _ _ 24 (by decide) (by decide) (by decide) e1 e2
  · intro e1 e2
    unfold topicErrorMsg conceptErrorMsg
    exact string_append_ne_of_getElem_ne _ _ 39 (by decide) (by decide) (by decide) e1 e2

/-- Witness for C10 with failures carrying "quota exceeded". -/
theorem c10_error_messages_identify_tab_witness :
    Event.error (debugErrorMsg "quota exceeded") ∈
      (debugHandler st0 (stubErr "quota exceeded") "x").2 ∧
    Event.error (topicErrorMsg "quota exceeded") ∈
      (topicHandler st0 (stubErr "quota exceeded") "x").2 ∧
    Event.error (conceptErrorMsg "quota exceeded") ∈
      (conceptHandler st0 (stubErr "quota exceeded") "x").2 ∧
    debugErrorMsg "a" ≠ topicErrorMsg "b" ∧
    debugErrorMsg "a" ≠ conceptErrorMsg "b" ∧
    topicErrorMsg "a" ≠ conceptErrorMsg "b" :=
  ⟨c10_error_messages_identify_tab.2.2.2.1 st0 (stubErr "quota exceeded") "x"
      "quota exceeded" rfl rfl,
   c10_error_messages_identify_tab.2.2.2.2.1 st0 (stubErr "quota exceeded") "x"
      "quota exceeded" rfl rfl,
   c10_error_messages_identify_tab.2.2.2.2.2.1 st0 (stubErr "quota exceeded") "x"
      "quota exceeded" rfl rfl,
   c10_error_messages_identify_tab.2.2.2.2.2.2.1 "a" "b",
   c10_error_messages_identify_tab.2.2.2.2.2.2.2.1 "a" "b",
   c10_error_messages_identify_tab.2.2.2.2.2.2.2.2 "a" "b"⟩

end App
